import Mathlib

/-!
Verification model of `chatProcessManager.js` from the rsochatbot repository.

The manager keeps a `Map` from chat id to `{ process, lastUsed }`, spawns one
Python worker per chat (`getChatProcess` / `initializeChatProcess`), exchanges
JSON messages with it (`sendMessage`), and reaps entries older than
`processTimeout` on a 5-minute interval (`startCleanupInterval`).

The embedding has two layers:

* pure models of the per-dispatch callbacks installed by `sendMessage`
  (`messageHandler`, `errorHandler`, `endHandler`, the 60 s timeout), acting on
  a `DispatchState`;
* a small-step operational model `step : MgrState → Ev → MgrState` of the
  manager.  JavaScript is single threaded, so every synchronous run of code up
  to an `await` is one atomic step; suspensions (the handshake promise, timer
  callbacks, message/end events) are separate events that an execution trace
  interleaves freely.  `run` folds a trace from the empty initial state.
-/

namespace RSOChat

/-- JavaScript values as far as the manager inspects them: the code only ever
asks for truthiness of JSON-decoded fields and compares `status` to the string
`ready`. -/
inductive JVal where
  | null
  | bool (b : Bool)
  | num (n : Int)
  | str (s : String)
  | obj
deriving DecidableEq, Repr

/-- JavaScript truthiness: `null`, `false`, `0` and `""` are falsy; objects are
truthy. -/
def JVal.truthy : JVal → Bool
  | .null => false
  | .bool b => b
  | .num n => n != 0
  | .str s => s != ""
  | .obj => true

/-- Truthiness of an object field access: an absent field (`undefined`) is
falsy. -/
def truthyField : Option JVal → Bool
  | none => false
  | some v => v.truthy

/-- A JSON-decoded worker message as the manager sees it (PythonShell runs in
`mode: 'json'`, so `message` events deliver parsed objects).  Only the
`response`, `error` and `status` fields are ever read. -/
structure WorkerMsg where
  response : Option JVal
  error : Option JVal
  status : Option JVal
deriving DecidableEq, Repr

/-- `message && message.status === 'ready'` (chatProcessManager.js line 68):
the handshake accepts exactly a truthy message whose `status` field is the
string `ready`. -/
def isReadyMsg : Option WorkerMsg → Bool
  | some m => match m.status with
    | some (.str s) => s == "ready"
    | _ => false
  | none => false

/-- Does the character list `needle` occur at the head of `hay`? -/
def matchAt : List Char → List Char → Bool
  | [], _ => true
  | _ :: _, [] => false
  | a :: as, b :: bs => a == b && matchAt as bs

/-- Does `needle` occur anywhere inside `hay`? -/
def hasSub (needle : List Char) : List Char → Bool
  | [] => needle.isEmpty
  | c :: t => matchAt needle (c :: t) || hasSub needle t

/-- `hay.includes(needle)` on strings. -/
def containsStr (needle hay : String) : Bool :=
  hasSub needle.toList hay.toList

/-- The stderr noise filter of `sendMessage` (lines 124-126): lines containing
`Batches:`, `it/s]` or `INFO` are progress noise, everything else is treated
as a real error. -/
def isNoise (line : String) : Bool :=
  containsStr "Batches:" line || containsStr "it/s]" line || containsStr "INFO" line

/-- How a dispatch promise was rejected; each constructor corresponds to one
`reject(...)` site in `sendMessage`. -/
inductive RejectReason where
  | workerError (e : JVal)
  | timedOut
  | processError (e : String)
  | scriptFailed
  | noValidResponse
  | noOutput
deriving DecidableEq, Repr

/-- Settlement of the promise returned by `sendMessage`. -/
inductive DispatchResult where
  | resolved (v : JVal)
  | rejected (e : RejectReason)
deriving DecidableEq, Repr

/-- The mutable state captured by one `sendMessage` promise executor: the
settlement (a JS promise settles at most once), whether `clearTimeout` has run,
the `outputBuffer` of non-reply messages, and the `errorOccurred` flag. -/
structure DispatchState where
  settled : Option DispatchResult
  timeoutCleared : Bool
  outputBuffer : List (Option WorkerMsg)
  errorOccurred : Bool
deriving DecidableEq, Repr

/-- State of a freshly created dispatch, right after `pythonProcess.send`. -/
def initDispatchState : DispatchState :=
  ⟨none, false, [], false⟩

/-- Settle once: further resolves/rejects on an already settled promise are
no-ops. -/
def settleWith (r : DispatchResult) (st : DispatchState) : DispatchState :=
  match st.settled with
  | some _ => st
  | none => { st with settled := some r }

/-- The `message` listener of `sendMessage` (lines 106-118): a truthy message
with a truthy `response` or `error` field clears the timeout and settles the
promise (reject wins when `error` is truthy); every other message is pushed
onto `outputBuffer`. -/
def messageHandler (response : Option WorkerMsg) (st : DispatchState) : DispatchState :=
  match response with
  | some m =>
    if truthyField m.response || truthyField m.error then
      let st := { st with timeoutCleared := true }
      if truthyField m.error then
        settleWith (.rejected (.workerError (m.error.getD .null))) st
      else
        settleWith (.resolved (m.response.getD .null)) st
    else
      { st with outputBuffer := st.outputBuffer ++ [some m] }
  | none => { st with outputBuffer := st.outputBuffer ++ [none] }

/-- The `stderr` listener of `sendMessage` (lines 120-130): noise lines are
only logged; any other line sets `errorOccurred`.  No line settles the promise
by itself. -/
def errorHandler (line : String) (st : DispatchState) : DispatchState :=
  if isNoise line then st else { st with errorOccurred := true }

/-- The 60 s dispatch timer callback (lines 99-101): if `clearTimeout` has not
run, reject with the timeout error.  It touches nothing else — in particular
it does not remove the registry entry or end the process. -/
def timeoutFire (st : DispatchState) : DispatchState :=
  if st.timeoutCleared then st else settleWith (.rejected .timedOut) st

/-- The `end` listener of `sendMessage` (lines 132-165): clear the timeout;
with a process error or a recorded stderr error, reject without looking at the
buffer; otherwise inspect the last buffered message — truthy `error` rejects,
truthy `response` resolves, any other object is `No valid response in output`,
and an empty buffer (or a falsy last element) is `No output received`. -/
def endHandler (err : Option String) (st : DispatchState) : DispatchState :=
  let st := { st with timeoutCleared := true }
  if err.isSome || st.errorOccurred then
    settleWith (.rejected (match err with
      | some e => .processError e
      | none => .scriptFailed)) st
  else
    match st.outputBuffer.getLast? with
    | some (some lastOutput) =>
      if truthyField lastOutput.error then
        settleWith (.rejected (.workerError (lastOutput.error.getD .null))) st
      else if truthyField lastOutput.response then
        settleWith (.resolved (lastOutput.response.getD .null)) st
      else
        settleWith (.rejected .noValidResponse) st
    | some none => settleWith (.rejected .noOutput) st
    | none => settleWith (.rejected .noOutput) st

/-! ### The manager -/

abbrev ChatId := Nat
abbrev Pid := Nat

/-- Constructor constants of `ChatProcessManager` (lines 20-23). -/
def maxProcesses : Nat := 10

/-- Idle TTL in milliseconds (`this.processTimeout`, 30 minutes in the first
variant of the file). -/
def processTimeout : Nat := 30 * 60 * 1000

/-- The per-dispatch timer delay of `sendMessage` (lines 99-101): 60 s. -/
def dispatchTimeoutMs : Nat := 60000

/-- One `this.processes` entry: `{ process, lastUsed }`. -/
structure Entry where
  pid : Pid
  lastUsed : Nat
deriving DecidableEq, Repr

/-- `Map.get`: association-list lookup with JS `Map` semantics (at most one
binding per key). -/
def mapGet (m : List (ChatId × Entry)) (k : ChatId) : Option Entry :=
  match m with
  | [] => none
  | (k', v') :: t => if k' = k then some v' else mapGet t k

/-- `Map.set`: replace an existing binding in place, otherwise append. -/
def mapSet (m : List (ChatId × Entry)) (k : ChatId) (v : Entry) : List (ChatId × Entry) :=
  match m with
  | [] => [(k, v)]
  | (k', v') :: t => if k' = k then (k, v) :: t else (k', v') :: mapSet t k v

/-- A `getChatProcess` call suspended on the handshake promise (lines 62-78).
`armed` records whether the `once('message')` listener is still attached: it
is consumed by the first message, ready or not. -/
structure Pending where
  chatId : ChatId
  pid : Pid
  armed : Bool
deriving DecidableEq, Repr

/-- Outcome of a completed `getChatProcess` call. -/
inductive GetResult where
  | ok (pid : Pid)
  | capacityError
  | initTimeout
  | procError (e : String)
deriving DecidableEq, Repr

/-- One in-flight or finished `sendMessage` invocation: which chat and worker
it targets, a tag identifying its message, and its promise state. -/
structure DispatchRec where
  chatId : ChatId
  pid : Pid
  tag : Nat
  st : DispatchState
deriving DecidableEq, Repr

/-- Global state of the embedded manager.  `spawned` and `terminated` record
every `new PythonShell(...)` and every `process.end()`; `writes` records every
`pythonProcess.send` as (pid, message tag); `completedGets` records results of
finished `getChatProcess` calls in completion order; `now` is `Date.now()`. -/
structure MgrState where
  processes : List (ChatId × Entry)
  nextPid : Pid
  spawned : List Pid
  terminated : List Pid
  pending : List Pending
  dispatches : List DispatchRec
  writes : List (Pid × Nat)
  completedGets : List (ChatId × GetResult)
  now : Nat
deriving DecidableEq, Repr

/-- The manager right after construction: empty map, nothing spawned. -/
def initState : MgrState :=
  ⟨[], 0, [], [], [], [], [], [], 0⟩

/-- The synchronous prefix of `getChatProcess` (lines 26-62), which runs
atomically up to the `await` on the handshake promise: a hit refreshes
`lastUsed` and returns the existing process; a miss first checks
`this.processes.size >= this.maxProcesses` and fails without spawning, else
spawns a fresh process and suspends awaiting its handshake. -/
def callGetStep (c : ChatId) (s : MgrState) : MgrState :=
  match mapGet s.processes c with
  | some e =>
    { s with processes := mapSet s.processes c ⟨e.pid, s.now⟩,
             completedGets := s.completedGets ++ [(c, .ok e.pid)] }
  | none =>
    if s.processes.length ≥ maxProcesses then
      { s with completedGets := s.completedGets ++ [(c, .capacityError)] }
    else
      { s with nextPid := s.nextPid + 1,
               spawned := s.spawned ++ [s.nextPid],
               pending := s.pending ++ [⟨c, s.nextPid, true⟩] }

/-- Remove the pending launch for `pid`. -/
def removePending (pid : Pid) (l : List Pending) : List Pending :=
  l.filter (fun q => q.pid != pid)

/-- Delivery of the first stdout message to a launching worker's
`once('message')` listener (lines 67-72): a ready message clears the timer,
stores `{ process, lastUsed: Date.now() }` in the map and completes the call;
any other first message merely consumes the once-listener (`armed := false`),
so only the 30 s timer can finish the launch afterwards. -/
def handshakeMsgStep (pid : Pid) (m : Option WorkerMsg) (s : MgrState) : MgrState :=
  match s.pending.find? (fun q => q.pid == pid) with
  | none => s
  | some p =>
    if p.armed then
      if isReadyMsg m then
        { s with pending := removePending pid s.pending,
                 processes := mapSet s.processes p.chatId ⟨pid, s.now⟩,
                 completedGets := s.completedGets ++ [(p.chatId, .ok pid)] }
      else
        { s with pending :=
            s.pending.map (fun q => if q.pid == pid then ⟨q.chatId, q.pid, false⟩ else q) }
    else s

/-- The 30 s handshake timer firing (lines 63-65): the launch fails with
`Process initialization timeout`.  Nothing is stored and — notably — the
spawned process is not ended. -/
def handshakeTimeoutStep (pid : Pid) (s : MgrState) : MgrState :=
  match s.pending.find? (fun q => q.pid == pid) with
  | none => s
  | some p =>
    { s with pending := removePending pid s.pending,
             completedGets := s.completedGets ++ [(p.chatId, .initTimeout)] }

/-- The `once('error')` path of the handshake (lines 74-77): clear the timer
and reject with the process error.  Nothing is stored, the process is not
ended. -/
def handshakeErrStep (pid : Pid) (e : String) (s : MgrState) : MgrState :=
  match s.pending.find? (fun q => q.pid == pid) with
  | none => s
  | some p =>
    { s with pending := removePending pid s.pending,
             completedGets := s.completedGets ++ [(p.chatId, .procError e)] }

/-- A `sendMessage` call for a chat whose process is already registered: the
`getChatProcess` hit path refreshes `lastUsed` and returns the process, then
the promise executor installs its listeners and writes the message to the
worker's stdin (line 176).  There is no busy check: the write and the new
dispatch record are created unconditionally. -/
def callSendStep (c : ChatId) (tag : Nat) (s : MgrState) : MgrState :=
  match mapGet s.processes c with
  | some e =>
    { s with processes := mapSet s.processes c ⟨e.pid, s.now⟩,
             writes := s.writes ++ [(e.pid, tag)],
             dispatches := s.dispatches ++ [⟨c, e.pid, tag, initDispatchState⟩] }
  | none => s

/-- Apply a dispatch-state transformer to the dispatch with the given tag. -/
def updateDispatch (tag : Nat) (f : DispatchState → DispatchState)
    (ds : List DispatchRec) : List DispatchRec :=
  ds.map (fun d => if d.tag == tag then ⟨d.chatId, d.pid, d.tag, f d.st⟩ else d)

/-- The idle sweep body (lines 188-197): every entry with
`now - lastUsed > processTimeout` has its process ended and is deleted; the
condition reads only `lastUsed`, never any dispatch or launch state. -/
def sweepStep (s : MgrState) : MgrState :=
  { s with
    processes := s.processes.filter (fun p => ¬ (s.now - p.2.lastUsed > processTimeout)),
    terminated := s.terminated ++
      (s.processes.filter (fun p => s.now - p.2.lastUsed > processTimeout)).map
        (fun p => p.2.pid) }

/-- Events of an execution trace.  Each is one atomic turn of the JavaScript
event loop touching the manager. -/
inductive Ev where
  | callGet (c : ChatId)
  | handshakeMsg (pid : Pid) (m : Option WorkerMsg)
  | handshakeTimeout (pid : Pid)
  | handshakeErr (pid : Pid) (e : String)
  | callSend (c : ChatId) (tag : Nat)
  | workerMsg (tag : Nat) (m : Option WorkerMsg)
  | stderrLine (tag : Nat) (line : String)
  | workerEnd (tag : Nat) (err : Option String)
  | dispatchTimeout (tag : Nat)
  | sweep
  | tick (dt : Nat)
deriving DecidableEq, Repr

/-- One step of the manager. -/
def step (s : MgrState) (e : Ev) : MgrState :=
  match e with
  | .callGet c => callGetStep c s
  | .handshakeMsg pid m => handshakeMsgStep pid m s
  | .handshakeTimeout pid => handshakeTimeoutStep pid s
  | .handshakeErr pid err => handshakeErrStep pid err s
  | .callSend c tag => callSendStep c tag s
  | .workerMsg tag m => { s with dispatches := updateDispatch tag (messageHandler m) s.dispatches }
  | .stderrLine tag line => { s with dispatches := updateDispatch tag (errorHandler line) s.dispatches }
  | .workerEnd tag err => { s with dispatches := updateDispatch tag (endHandler err) s.dispatches }
  | .dispatchTimeout tag => { s with dispatches := updateDispatch tag timeoutFire s.dispatches }
  | .sweep => sweepStep s
  | .tick dt => { s with now := s.now + dt }

/-- Run a trace from the initial state. -/
def run (evs : List Ev) : MgrState :=
  evs.foldl step initState

/-- The worker's handshake message `{"status":"ready"}`. -/
def readyMsg : Option WorkerMsg :=
  some ⟨none, none, some (.str "ready")⟩

/-! ### Map lemmas -/

theorem mapSet_length_of_get {m : List (ChatId × Entry)} {k : ChatId} {e : Entry}
    (v : Entry) (h : mapGet m k = some e) : (mapSet m k v).length = m.length := by
  induction m with
  | nil => simp [mapGet] at h
  | cons a t ih =>
    by_cases hk : a.1 = k
    · simp [mapSet, hk]
    · simp only [mapGet, hk, if_neg] at h
      simp [mapSet, hk, ih h]

theorem mapGet_set_self (m : List (ChatId × Entry)) (k : ChatId) (v : Entry) :
    mapGet (mapSet m k v) k = some v := by
  induction m with
  | nil => simp [mapSet, mapGet]
  | cons a t ih =>
    by_cases hk : a.1 = k
    · simp [mapSet, hk, mapGet]
    · simp [mapSet, hk, mapGet, ih]

theorem mapGet_some_mem {m : List (ChatId × Entry)} {k : ChatId} {e : Entry}
    (h : mapGet m k = some e) : (k, e) ∈ m := by
  induction m with
  | nil => simp [mapGet] at h
  | cons a t ih =>
    rcases a with ⟨k', v'⟩
    by_cases hk : k' = k
    · simp only [mapGet, hk, if_pos, Option.some.injEq] at h
      subst hk
      subst h
      exact List.mem_cons_self _ _
    · simp only [mapGet, hk, if_neg, not_false_iff] at h
      exact List.mem_cons_of_mem _ (ih h)

/-! ### Concrete traces and states used by the counterexamples and witnesses -/

/-- Nine sessions launched sequentially, then session 9 and session 10 both
begin launching while the registry holds 9 entries: each passes the
`size >= maxProcesses` check before either handshake stores its entry. -/
def c1trace : List Ev :=
  [.callGet 0, .handshakeMsg 0 readyMsg, .callGet 1, .handshakeMsg 1 readyMsg,
   .callGet 2, .handshakeMsg 2 readyMsg, .callGet 3, .handshakeMsg 3 readyMsg,
   .callGet 4, .handshakeMsg 4 readyMsg, .callGet 5, .handshakeMsg 5 readyMsg,
   .callGet 6, .handshakeMsg 6 readyMsg, .callGet 7, .handshakeMsg 7 readyMsg,
   .callGet 8, .handshakeMsg 8 readyMsg,
   .callGet 9, .callGet 10, .handshakeMsg 9 readyMsg, .handshakeMsg 10 readyMsg]

/-- Two `getChatProcess` calls for the same unseen chat id, the second running
before the first's handshake completes. -/
def c2trace : List Ev :=
  [.callGet 0, .callGet 0]

/-- A session is launched, a dispatch times out, and the session is resolved
again. -/
def c3trace : List Ev :=
  [.callGet 0, .handshakeMsg 0 readyMsg, .callSend 0 1, .dispatchTimeout 1, .callGet 0]

/-- Two dispatches on the same session while the first is still outstanding. -/
def c4trace : List Ev :=
  [.callGet 0, .handshakeMsg 0 readyMsg, .callSend 0 1, .callSend 0 2]

/-- A dispatch started at time 5 settles at time 12 with `{"response":"X"}`. -/
def c5trace : List Ev :=
  [.callGet 0, .handshakeMsg 0 readyMsg, .tick 5, .callSend 0 1, .tick 7,
   .workerMsg 1 (some ⟨some (.str "X"), none, none⟩)]

/-- A bare second resolve of an existing session at time 100. -/
def c7trace : List Ev :=
  [.callGet 0, .handshakeMsg 0 readyMsg, .tick 100, .callGet 0]

/-- A launch whose 30 s handshake window elapses with no ready message. -/
def c8trace : List Ev :=
  [.callGet 0, .handshakeTimeout 0]

/-- A dispatch that saw a non-noise stderr line and buffered a message
carrying a `response` field, at the moment the worker process ends. -/
def c9state : DispatchState :=
  ⟨none, false, [some ⟨some (.str "X"), none, none⟩], false⟩

/-- A registry already holding `maxProcesses` entries. -/
def fullState : MgrState :=
  ⟨[(0, ⟨0, 0⟩), (1, ⟨1, 0⟩), (2, ⟨2, 0⟩), (3, ⟨3, 0⟩), (4, ⟨4, 0⟩),
    (5, ⟨5, 0⟩), (6, ⟨6, 0⟩), (7, ⟨7, 0⟩), (8, ⟨8, 0⟩), (9, ⟨9, 0⟩)],
   10, [0, 1, 2, 3, 4, 5, 6, 7, 8, 9], [], [], [], [], [], 0⟩

/-- A registry holding one entry for chat 0 backed by worker 0. -/
def oneEntry : MgrState :=
  ⟨[(0, ⟨0, 3⟩)], 1, [0], [], [], [], [], [], 7⟩

/-- A registry holding chat 0 with an unsettled dispatch already outstanding
on its worker. -/
def busyState : MgrState :=
  ⟨[(0, ⟨0, 3⟩)], 1, [0], [], [], [⟨0, 0, 1, initDispatchState⟩], [(0, 1)], [], 7⟩

/-- A registry at time 1800001 holding a stale idle entry for chat 0 (stored
at time 0, no dispatch ever sent) and a fresh entry for chat 1 whose dispatch
started at time 1799995 — refreshing its `lastUsed` — and is still
unsettled, its 60 s timer not yet due. -/
def reapState : MgrState :=
  ⟨[(0, ⟨0, 0⟩), (1, ⟨1, 1799995⟩)], 2, [0, 1], [],
   [], [⟨1, 1, 1, initDispatchState⟩], [(1, 1)], [], 1800001⟩

/-- A launch for chat 5 (worker 7) suspended on its handshake. -/
def pendingState : MgrState :=
  ⟨[], 8, [7], [], [⟨5, 7, true⟩], [], [], [], 0⟩

/-! ### Claims -/

/-- C1, counterexample.  The claim says `count()` stays at or below
`maxProcesses` for every sequence of operations.  In `c1trace` two launches
overlap while the registry holds 9 entries: each passes the
`size >= maxProcesses` check before either handshake stores its entry, and the
registry ends with 11 entries. -/
theorem c1_counterexample :
    ¬ (run c1trace).processes.length ≤ maxProcesses := by decide

/-- C1, amended.  A `getChatProcess` for an unregistered chat while the
registry holds at least `maxProcesses` entries fails with the capacity error
and changes nothing else (no spawn, no registration); and from any state with
no launch in flight, a single event keeps `count() ≤ maxProcesses`.  Only
overlapping launches can exceed the cap, because the capacity check precedes
the handshake `await` while registration follows it. -/
theorem c1_amended :
    (∀ (s : MgrState) (c : ChatId), mapGet s.processes c = none →
      s.processes.length ≥ maxProcesses →
      callGetStep c s =
        { s with completedGets := s.completedGets ++ [(c, GetResult.capacityError)] }) ∧
    (∀ (s : MgrState) (e : Ev), s.pending = [] →
      s.processes.length ≤ maxProcesses →
      (step s e).processes.length ≤ maxProcesses) := by
  constructor
  · intro s c hget hfull
    simp [callGetStep, hget, hfull]
  · intro s e hp hlen
    cases e with
    | callGet c =>
      simp only [step, callGetStep]
      cases hg : mapGet s.processes c with
      | some v => simpa [mapSet_length_of_get _ hg] using hlen
      | none =>
        by_cases hfull : s.processes.length ≥ maxProcesses
        · simpa [hfull] using hlen
        · simpa [hfull] using hlen
    | handshakeMsg pid m => simpa [step, handshakeMsgStep, hp] using hlen
    | handshakeTimeout pid => simpa [step, handshakeTimeoutStep, hp] using hlen
    | handshakeErr pid e => simpa [step, handshakeErrStep, hp] using hlen
    | callSend c tag =>
      simp only [step, callSendStep]
      cases hg : mapGet s.processes c with
      | some v => simpa [mapSet_length_of_get _ hg] using hlen
      | none => simpa using hlen
    | workerMsg tag m => simpa [step] using hlen
    | stderrLine tag line => simpa [step] using hlen
    | workerEnd tag err => simpa [step] using hlen
    | dispatchTimeout tag => simpa [step] using hlen
    | sweep => exact le_trans (List.length_filter_le _ _) hlen
    | tick dt => simpa [step] using hlen

/-- C1, witness for `c1_amended` at a full registry and the event of a
resolve for a fresh chat id. -/
theorem c1_amended_witness :
    callGetStep 42 fullState =
      { fullState with
          completedGets := fullState.completedGets ++ [(42, GetResult.capacityError)] } ∧
    (step fullState (.callGet 42)).processes.length ≤ maxProcesses :=
  ⟨c1_amended.1 fullState 42 (by decide) (by decide),
   c1_amended.2 fullState (.callGet 42) rfl (by decide)⟩

/-- C2, counterexample.  The claim says two concurrent resolves of the same
unseen chat id launch exactly one process (the second waits).  Running
`getChatProcess 0` twice before either handshake completes spawns two
processes: the second call's `this.processes.get(chatId)` still misses,
because the entry is only stored after the handshake resolves. -/
theorem c2_counterexample :
    (run c2trace).spawned = [0, 1] ∧ ¬ (run c2trace).spawned.length = 1 := by decide

/-- C2, amended.  A resolve of an already registered chat spawns nothing and
returns the stored worker, and a resolve of an unregistered chat under the cap
spawns exactly one fresh process; but nothing makes a second overlapping
resolve of the same unseen id wait, so each overlapping resolve spawns its own
process (see `c2_counterexample`). -/
theorem c2_amended :
    (∀ (s : MgrState) (c : ChatId) (e : Entry), mapGet s.processes c = some e →
      (callGetStep c s).spawned = s.spawned ∧
      (callGetStep c s).completedGets = s.completedGets ++ [(c, GetResult.ok e.pid)]) ∧
    (∀ (s : MgrState) (c : ChatId), mapGet s.processes c = none →
      s.processes.length < maxProcesses →
      (callGetStep c s).spawned = s.spawned ++ [s.nextPid] ∧
      (callGetStep c s).pending = s.pending ++ [⟨c, s.nextPid, true⟩]) := by
  constructor
  · intro s c e h
    simp [callGetStep, h]
  · intro s c h hlt
    simp [callGetStep, h, Nat.not_le.mpr hlt]

/-- C2, witness for `c2_amended`: a hit on chat 0 spawns nothing, a miss on
chat 1 spawns exactly worker `nextPid`. -/
theorem c2_amended_witness :
    ((callGetStep 0 oneEntry).spawned = oneEntry.spawned ∧
      (callGetStep 0 oneEntry).completedGets =
        oneEntry.completedGets ++ [(0, GetResult.ok 0)]) ∧
    (callGetStep 1 oneEntry).spawned = oneEntry.spawned ++ [oneEntry.nextPid] ∧
    (callGetStep 1 oneEntry).pending = oneEntry.pending ++ [⟨1, oneEntry.nextPid, true⟩] :=
  ⟨c2_amended.1 oneEntry 0 ⟨0, 3⟩ (by decide),
   c2_amended.2 oneEntry 1 (by decide) (by decide)⟩

/-- C3, counterexample.  The claim says a dispatch timeout marks the handle
dead, removes it, and makes the next resolve launch a fresh process.  In
`c3trace` the timeout rejects the dispatch, yet the entry for chat 0 is still
registered and the follow-up resolve returns the same worker 0 — only one
process was ever spawned. -/
theorem c3_counterexample :
    (run c3trace).dispatches.map (fun d => d.st.settled) =
      [some (.rejected .timedOut)] ∧
    mapGet (run c3trace).processes 0 = some ⟨0, 0⟩ ∧
    (run c3trace).spawned = [0] ∧
    (run c3trace).completedGets = [(0, .ok 0), (0, .ok 0)] := by decide

/-- C3, amended.  The dispatch timer firing rejects an unsettled dispatch with
the timeout error, but leaves the registry, the spawn record and the
termination record untouched; a subsequent resolve of the same chat therefore
returns the existing worker without spawning. -/
theorem c3_amended :
    (∀ (s : MgrState) (tag : Nat),
      (step s (.dispatchTimeout tag)).processes = s.processes ∧
      (step s (.dispatchTimeout tag)).spawned = s.spawned ∧
      (step s (.dispatchTimeout tag)).terminated = s.terminated) ∧
    (∀ st : DispatchState, st.settled = none → st.timeoutCleared = false →
      (timeoutFire st).settled = some (.rejected .timedOut)) ∧
    (∀ (s : MgrState) (c : ChatId) (e : Entry), mapGet s.processes c = some e →
      (callGetStep c s).spawned = s.spawned ∧
      (callGetStep c s).completedGets = s.completedGets ++ [(c, GetResult.ok e.pid)]) := by
  refine ⟨fun s tag => ⟨rfl, rfl, rfl⟩, ?_, ?_⟩
  · intro st hs hc
    simp [timeoutFire, hc, settleWith, hs]
  · intro s c e h
    simp [callGetStep, h]

/-- C3, witness for `c3_amended` on a fresh dispatch and the one-entry
registry. -/
theorem c3_amended_witness :
    ((step busyState (.dispatchTimeout 1)).processes = busyState.processes ∧
      (step busyState (.dispatchTimeout 1)).spawned = busyState.spawned ∧
      (step busyState (.dispatchTimeout 1)).terminated = busyState.terminated) ∧
    (timeoutFire initDispatchState).settled = some (.rejected .timedOut) ∧
    (callGetStep 0 oneEntry).spawned = oneEntry.spawned :=
  ⟨c3_amended.1 busyState 1,
   c3_amended.2.1 initDispatchState rfl rfl,
   (c3_amended.2.2 oneEntry 0 ⟨0, 3⟩ (by decide)).1⟩

/-- C4, counterexample.  The claim says a second dispatch on a busy session
fails immediately with a Busy condition and writes nothing.  In `c4trace` the
second `sendMessage` writes a second message to the same worker's stdin while
the first dispatch is unsettled, and both dispatches proceed (neither is
rejected). -/
theorem c4_counterexample :
    (run c4trace).writes = [(0, 1), (0, 2)] ∧
    (run c4trace).dispatches.map (fun d => d.st.settled) = [none, none] := by decide

/-- C4, amended.  `sendMessage` on a registered chat has no busy guard: it
unconditionally writes the message to the worker's stdin and installs a new
unsettled dispatch, whatever dispatches are already outstanding on that
worker. -/
theorem c4_amended :
    ∀ (s : MgrState) (c : ChatId) (tag : Nat) (e : Entry),
      mapGet s.processes c = some e →
      (callSendStep c tag s).writes = s.writes ++ [(e.pid, tag)] ∧
      (callSendStep c tag s).dispatches =
        s.dispatches ++ [⟨c, e.pid, tag, initDispatchState⟩] := by
  intro s c tag e h
  simp [callSendStep, h]

/-- C4, witness for `c4_amended` at a state whose worker 0 already has an
unsettled dispatch outstanding: the second write still happens. -/
theorem c4_amended_witness :
    (callSendStep 0 2 busyState).writes = busyState.writes ++ [(0, 2)] ∧
    (callSendStep 0 2 busyState).dispatches =
      busyState.dispatches ++ [⟨0, 0, 2, initDispatchState⟩] :=
  c4_amended busyState 0 2 ⟨0, 3⟩ (by decide)

/-- C5, counterexample.  The claim says a successful settlement updates
`lastUsedAt` at settlement time.  In `c5trace` the dispatch starts at time 5
and settles with `{"response":"X"}` at time 12, yet the entry still carries
`lastUsed = 5`: settlement does not touch the registry. -/
theorem c5_counterexample :
    (run c5trace).dispatches.map (fun d => d.st.settled) =
      [some (.resolved (.str "X"))] ∧
    (run c5trace).now = 12 ∧
    mapGet (run c5trace).processes 0 = some ⟨0, 5⟩ ∧
    ¬ mapGet (run c5trace).processes 0 = some ⟨0, 12⟩ := by decide

/-- C5, amended.  A message `{"response":"X"}` with nonempty `X` settles an
unsettled dispatch as resolved `X` and clears the timeout; delivering any
worker message never changes the registry (so `lastUsedAt` keeps the value
set when the dispatch started); and a structured message with falsy
`response` and `error` fields is only buffered. -/
theorem c5_amended :
    (∀ (st : DispatchState) (x : String), st.settled = none → x ≠ "" →
      (messageHandler (some ⟨some (.str x), none, none⟩) st).settled =
        some (.resolved (.str x)) ∧
      (messageHandler (some ⟨some (.str x), none, none⟩) st).timeoutCleared = true) ∧
    (∀ (s : MgrState) (tag : Nat) (m : Option WorkerMsg),
      (step s (.workerMsg tag m)).processes = s.processes) ∧
    (∀ (st : DispatchState) (m : WorkerMsg),
      truthyField m.response = false → truthyField m.error = false →
      messageHandler (some m) st =
        { st with outputBuffer := st.outputBuffer ++ [some m] }) := by
  refine ⟨?_, fun s tag m => rfl, ?_⟩
  · intro st x hs hx
    have hx' : (x != "") = true := by simpa using hx
    constructor <;> simp [messageHandler, truthyField, JVal.truthy, hx', settleWith, hs]
  · intro st m hr he
    simp [messageHandler, hr, he]

/-- C5, witness for `c5_amended` at a fresh dispatch, the reply
`{"response":"X"}`, and the non-reply message `{"response":""}`. -/
theorem c5_amended_witness :
    ((messageHandler (some ⟨some (.str "X"), none, none⟩) initDispatchState).settled =
        some (.resolved (.str "X")) ∧
      (messageHandler (some ⟨some (.str "X"), none, none⟩) initDispatchState).timeoutCleared =
        true) ∧
    (step oneEntry (.workerMsg 1 none)).processes = oneEntry.processes ∧
    messageHandler (some ⟨some (.str ""), none, none⟩) initDispatchState =
      { initDispatchState with
          outputBuffer := initDispatchState.outputBuffer ++ [some ⟨some (.str ""), none, none⟩] } :=
  ⟨c5_amended.1 initDispatchState "X" rfl (by decide),
   c5_amended.2.1 oneEntry 1 none,
   c5_amended.2.2 initDispatchState ⟨some (.str ""), none, none⟩ (by decide) (by decide)⟩

/-- C6.  A sweep never terminates or removes a handle with an in-flight
dispatch: starting a dispatch refreshes the handle's `lastUsed` to the
dispatch's start time, and the dispatch's own 60 s timer — which the event
loop fires in expiry order, hence before any sweep tick that falls due later —
settles the dispatch within `dispatchTimeoutMs` of that start, so at any sweep
a handle with an unsettled dispatch is at most `dispatchTimeoutMs` old (the
fourth hypothesis of the first conjunct), far under the 30-minute TTL, and the
sweep retains it.  The sweep terminates only processes of registered entries
whose age exceeds the TTL, so it cannot end the worker of such a handle either;
launches still awaiting their handshake are not yet registered and a sweep
leaves them (and every dispatch record) untouched; and exactly the registered
entries whose `now − lastUsed` exceeds `processTimeout` are removed, with
their processes ended, on the next sweep — younger entries are retained. -/
theorem c6_theorem :
    (∀ (s : MgrState) (d : DispatchRec) (e : Entry),
      d ∈ s.dispatches → d.st.settled = none →
      mapGet s.processes d.chatId = some e →
      s.now - e.lastUsed ≤ dispatchTimeoutMs →
      (d.chatId, e) ∈ (step s .sweep).processes) ∧
    (∀ (s : MgrState) (pid : Pid), pid ∈ (step s .sweep).terminated →
      pid ∈ s.terminated ∨
        ∃ p ∈ s.processes, p.2.pid = pid ∧ s.now - p.2.lastUsed > processTimeout) ∧
    (∀ s : MgrState, (step s .sweep).pending = s.pending ∧
      (step s .sweep).dispatches = s.dispatches) ∧
    (∀ (s : MgrState) (p : ChatId × Entry), p ∈ s.processes →
      (s.now - p.2.lastUsed ≤ processTimeout → p ∈ (step s .sweep).processes) ∧
      (s.now - p.2.lastUsed > processTimeout →
        p ∉ (step s .sweep).processes ∧ p.2.pid ∈ (step s .sweep).terminated)) := by
  refine ⟨?_, ?_, fun s => ⟨rfl, rfl⟩, ?_⟩
  · intro s d e hd hs hget hage
    have hmem := mapGet_some_mem hget
    have hyoung : s.now - e.lastUsed ≤ processTimeout :=
      le_trans hage (by decide)
    simp only [step, sweepStep]
    refine List.mem_filter.mpr ⟨hmem, ?_⟩
    simp only [decide_eq_true_eq, gt_iff_lt, Nat.not_lt]
    exact hyoung
  · intro s pid h
    simp only [step, sweepStep, List.mem_append] at h
    rcases h with h | h
    · exact Or.inl h
    · right
      rcases List.mem_map.mp h with ⟨p, hp, rfl⟩
      have hfp := List.mem_filter.mp hp
      exact ⟨p, hfp.1, rfl, by simpa using hfp.2⟩
  · intro s p hp
    constructor
    · intro hage
      simp only [step, sweepStep]
      refine List.mem_filter.mpr ⟨hp, ?_⟩
      simp only [decide_eq_true_eq, gt_iff_lt, Nat.not_lt]
      exact hage
    · intro hage
      constructor
      · simp only [step, sweepStep]
        intro hmem
        have hcond := (List.mem_filter.mp hmem).2
        simp only [decide_eq_true_eq, gt_iff_lt, Nat.not_lt] at hcond
        exact absurd hage (by simpa using hcond)
      · simp only [step, sweepStep]
        refine List.mem_append.mpr (Or.inr ?_)
        refine List.mem_map.mpr ⟨p, List.mem_filter.mpr ⟨hp, ?_⟩, rfl⟩
        simpa using hage

/-- C6, witness for `c6_theorem` at `reapState`: the fresh handle of chat 1,
whose dispatch is unsettled and 6 ms old, survives the sweep; worker 0 is
terminated only because its stale entry aged past the TTL; `pending` is
untouched; and the stale idle entry is removed with its process ended. -/
theorem c6_theorem_witness :
    (1, (⟨1, 1799995⟩ : Entry)) ∈ (step reapState .sweep).processes ∧
    ((0 : Pid) ∈ reapState.terminated ∨
      ∃ p ∈ reapState.processes, p.2.pid = 0 ∧
        reapState.now - p.2.lastUsed > processTimeout) ∧
    (step reapState .sweep).pending = reapState.pending ∧
    ((0, (⟨0, 0⟩ : Entry)) ∉ (step reapState .sweep).processes ∧
      (0 : Pid) ∈ (step reapState .sweep).terminated) :=
  ⟨c6_theorem.1 reapState ⟨1, 1, 1, initDispatchState⟩ ⟨1, 1799995⟩
      (by decide) rfl (by decide) (by decide),
   c6_theorem.2.1 reapState 0 (by decide),
   (c6_theorem.2.2.1 reapState).1,
   (c6_theorem.2.2.2 reapState (0, ⟨0, 0⟩) (by decide)).2 (by decide)⟩

/-- C7, counterexample.  The claim says a bare resolve of a registered session
refreshes nothing, in particular leaves `lastUsedAt` unchanged.  In `c7trace`
the entry was stored at time 0 and a bare `getChatProcess` at time 100 sets
`lastUsed` to 100. -/
theorem c7_counterexample :
    mapGet (run c7trace).processes 0 = some ⟨0, 100⟩ ∧
    ¬ mapGet (run c7trace).processes 0 = some ⟨0, 0⟩ := by decide

/-- C7, amended.  A resolve of a registered chat returns the existing worker
and refreshes `lastUsedAt` to the current time (so a never-dispatching session
is kept alive past the reap TTL by bare resolves); a dispatch also refreshes
`lastUsedAt` when it starts, while settlement events (worker messages,
process end) never touch the registry. -/
theorem c7_amended :
    (∀ (s : MgrState) (c : ChatId) (e : Entry), mapGet s.processes c = some e →
      mapGet (callGetStep c s).processes c = some ⟨e.pid, s.now⟩ ∧
      (callGetStep c s).spawned = s.spawned) ∧
    (∀ (s : MgrState) (c : ChatId) (tag : Nat) (e : Entry),
      mapGet s.processes c = some e →
      mapGet (callSendStep c tag s).processes c = some ⟨e.pid, s.now⟩) ∧
    (∀ (s : MgrState) (tag : Nat) (m : Option WorkerMsg) (err : Option String),
      (step s (.workerMsg tag m)).processes = s.processes ∧
      (step s (.workerEnd tag err)).processes = s.processes) := by
  refine ⟨?_, ?_, fun s tag m err => ⟨rfl, rfl⟩⟩
  · intro s c e h
    constructor
    · simp [callGetStep, h, mapGet_set_self]
    · simp [callGetStep, h]
  · intro s c tag e h
    simp [callSendStep, h, mapGet_set_self]

/-- C7, witness for `c7_amended` at the one-entry registry (entry stored with
`lastUsed = 3`, current time 7). -/
theorem c7_amended_witness :
    (mapGet (callGetStep 0 oneEntry).processes 0 = some ⟨0, 7⟩ ∧
      (callGetStep 0 oneEntry).spawned = oneEntry.spawned) ∧
    mapGet (callSendStep 0 1 oneEntry).processes 0 = some ⟨0, 7⟩ ∧
    (step oneEntry (.workerMsg 1 none)).processes = oneEntry.processes :=
  ⟨c7_amended.1 oneEntry 0 ⟨0, 3⟩ (by decide),
   c7_amended.2.1 oneEntry 0 1 ⟨0, 3⟩ (by decide),
   (c7_amended.2.2 oneEntry 1 none none).1⟩

/-- C8, counterexample.  The claim says a failed handshake terminates the
partially-started worker.  In `c8trace` the 30 s window elapses: the launch
fails and nothing is registered, but the spawned worker 0 is never ended — it
is leaked. -/
theorem c8_counterexample :
    (run c8trace).completedGets = [(0, .initTimeout)] ∧
    (run c8trace).processes = [] ∧
    (run c8trace).spawned = [0] ∧
    (run c8trace).terminated = [] := by decide

/-- C8, amended.  Every handshake failure path — the 30 s timer, a process
error, and a non-ready first message (which merely consumes the
`once('message')` listener, leaving only the timer to finish the launch) —
stores no registry entry for the session, and none of them terminates the
spawned process. -/
theorem c8_amended :
    (∀ (s : MgrState) (pid : Pid) (p : Pending),
      s.pending.find? (fun q => q.pid == pid) = some p →
      (handshakeTimeoutStep pid s).processes = s.processes ∧
      (handshakeTimeoutStep pid s).terminated = s.terminated ∧
      (handshakeTimeoutStep pid s).completedGets =
        s.completedGets ++ [(p.chatId, GetResult.initTimeout)]) ∧
    (∀ (s : MgrState) (pid : Pid) (e : String) (p : Pending),
      s.pending.find? (fun q => q.pid == pid) = some p →
      (handshakeErrStep pid e s).processes = s.processes ∧
      (handshakeErrStep pid e s).terminated = s.terminated ∧
      (handshakeErrStep pid e s).completedGets =
        s.completedGets ++ [(p.chatId, GetResult.procError e)]) ∧
    (∀ (s : MgrState) (pid : Pid) (m : Option WorkerMsg) (p : Pending),
      s.pending.find? (fun q => q.pid == pid) = some p → p.armed = true →
      isReadyMsg m = false →
      (handshakeMsgStep pid m s).processes = s.processes ∧
      (handshakeMsgStep pid m s).terminated = s.terminated ∧
      (handshakeMsgStep pid m s).completedGets = s.completedGets) := by
  refine ⟨?_, ?_, ?_⟩
  · intro s pid p h
    simp [handshakeTimeoutStep, h]
  · intro s pid e p h
    simp [handshakeErrStep, h]
  · intro s pid m p h harm hready
    simp [handshakeMsgStep, h, harm, hready]

/-- C8, witness for `c8_amended` at a suspended launch (chat 5, worker 7):
timeout, process error, and a non-ready first message all leave the registry
empty and terminate nothing. -/
theorem c8_amended_witness :
    ((handshakeTimeoutStep 7 pendingState).processes = pendingState.processes ∧
      (handshakeTimeoutStep 7 pendingState).terminated = pendingState.terminated ∧
      (handshakeTimeoutStep 7 pendingState).completedGets =
        pendingState.completedGets ++ [(5, GetResult.initTimeout)]) ∧
    ((handshakeErrStep 7 "spawn failed" pendingState).processes = pendingState.processes ∧
      (handshakeErrStep 7 "spawn failed" pendingState).terminated = pendingState.terminated ∧
      (handshakeErrStep 7 "spawn failed" pendingState).completedGets =
        pendingState.completedGets ++ [(5, GetResult.procError "spawn failed")]) ∧
    (handshakeMsgStep 7 (some ⟨none, none, some (.str "loading")⟩) pendingState).processes =
        pendingState.processes ∧
    (handshakeMsgStep 7 (some ⟨none, none, some (.str "loading")⟩) pendingState).terminated =
        pendingState.terminated ∧
    (handshakeMsgStep 7 (some ⟨none, none, some (.str "loading")⟩) pendingState).completedGets =
        pendingState.completedGets :=
  ⟨c8_amended.1 pendingState 7 ⟨5, 7, true⟩ (by decide),
   c8_amended.2.1 pendingState 7 "spawn failed" ⟨5, 7, true⟩ (by decide),
   c8_amended.2.2 pendingState 7 (some ⟨none, none, some (.str "loading")⟩) ⟨5, 7, true⟩
     (by decide) rfl (by decide)⟩

/-- C9, counterexample.  The claim says that at process end without a settled
reply the buffered output is inspected, a `response`-bearing last line
resolving the dispatch.  After one non-noise stderr line (`errorOccurred`
set), the `end` handler rejects with `Python script failed` without looking
at the buffer, even though the last buffered message carries
`{"response":"X"}`. -/
theorem c9_counterexample :
    isNoise "Traceback: boom" = false ∧
    (endHandler none (errorHandler "Traceback: boom" c9state)).settled =
      some (.rejected .scriptFailed) := by decide

/-- C9, amended.  Noise-matching stderr lines leave the dispatch state
untouched, and no stderr line settles the dispatch by itself; at process end
without a settled reply the buffer is inspected only when no process error
and no non-noise stderr line was recorded — then a truthy `error` in the last
buffered message rejects, a truthy `response` resolves, and anything else is
`No valid response in output`; with `errorOccurred` set the dispatch instead
fails with `Python script failed` regardless of the buffer. -/
theorem c9_amended :
    (∀ (line : String) (st : DispatchState), isNoise line = true →
      errorHandler line st = st) ∧
    (∀ (line : String) (st : DispatchState),
      (errorHandler line st).settled = st.settled) ∧
    (∀ st : DispatchState, st.settled = none → st.errorOccurred = true →
      (endHandler none st).settled = some (.rejected .scriptFailed)) ∧
    (∀ (st : DispatchState) (m : WorkerMsg), st.settled = none →
      st.errorOccurred = false → st.outputBuffer.getLast? = some (some m) →
      (endHandler none st).settled = some
        (if truthyField m.error then .rejected (.workerError (m.error.getD .null))
         else if truthyField m.response then .resolved (m.response.getD .null)
         else .rejected .noValidResponse)) := by
  refine ⟨?_, ?_, ?_, ?_⟩
  · intro line st h
    simp [errorHandler, h]
  · intro line st
    by_cases h : isNoise line <;> simp [errorHandler, h]
  · intro st hs hocc
    simp [endHandler, hocc, settleWith, hs]
  · intro st m hs hocc hbuf
    by_cases he : truthyField m.error <;> by_cases hr : truthyField m.response <;>
      simp [endHandler, hocc, hbuf, settleWith, hs, he, hr]

/-- C9, witness for `c9_amended`: a noise line is inert, stderr settles
nothing, an `errorOccurred` end skips the buffer, and a clean end resolves
from a buffered `{"response":"X"}`. -/
theorem c9_amended_witness :
    errorHandler "Batches: 100%" initDispatchState = initDispatchState ∧
    (errorHandler "Traceback: boom" initDispatchState).settled =
      initDispatchState.settled ∧
    (endHandler none
        (⟨none, false, [some ⟨some (.str "X"), none, none⟩], true⟩ : DispatchState)).settled =
      some (.rejected .scriptFailed) ∧
    (endHandler none c9state).settled = some (.resolved (.str "X")) :=
  ⟨c9_amended.1 "Batches: 100%" initDispatchState (by decide),
   c9_amended.2.1 "Traceback: boom" initDispatchState,
   c9_amended.2.2.1 ⟨none, false, [some ⟨some (.str "X"), none, none⟩], true⟩ rfl rfl,
   c9_amended.2.2.2 c9state ⟨some (.str "X"), none, none⟩ rfl rfl (by decide)⟩

/-- C10.  A structured message whose `response` field is falsy (empty string,
0, or null) and whose `error` field is absent or falsy does not settle the
dispatch: `response && (response.response || response.error)` is false, so the
message is only appended to `outputBuffer` — the settlement, the timeout and
the `errorOccurred` flag are untouched and the dispatch stays pending. -/
theorem c10_theorem :
    ∀ (st : DispatchState) (m : WorkerMsg),
      truthyField m.response = false → truthyField m.error = false →
      messageHandler (some m) st =
        { st with outputBuffer := st.outputBuffer ++ [some m] } := by
  intro st m hr he
  simp [messageHandler, hr, he]

/-- C10, witness for `c10_theorem` at the three falsy payloads named by the
claim: `{"response":""}`, `{"response":0}` and `{"response":null}`. -/
theorem c10_witness :
    messageHandler (some ⟨some (.str ""), none, none⟩) c9state =
      { c9state with
          outputBuffer := c9state.outputBuffer ++ [some ⟨some (.str ""), none, none⟩] } ∧
    messageHandler (some ⟨some (.num 0), none, none⟩) c9state =
      { c9state with
          outputBuffer := c9state.outputBuffer ++ [some ⟨some (.num 0), none, none⟩] } ∧
    messageHandler (some ⟨some .null, none, none⟩) c9state =
      { c9state with
          outputBuffer := c9state.outputBuffer ++ [some ⟨some .null, none, none⟩] } :=
  ⟨c10_theorem c9state ⟨some (.str ""), none, none⟩ (by decide) (by decide),
   c10_theorem c9state ⟨some (.num 0), none, none⟩ (by decide) (by decide),
   c10_theorem c9state ⟨some .null, none, none⟩ (by decide) (by decide)⟩

end RSOChat
